import Mathlib

/-!
Shallow embedding of the focus-session timer / check-in subsystem of
`src/src/contexts/UserContext.tsx` (the final, server-backed version of the
provider, the one all cited line numbers point at).

Modelling conventions:
* Wall-clock instants are integer milliseconds since the epoch (`Int`).
  JavaScript `Math.floor(x / 1000)` on integer-valued numbers is integer
  floor division, which is `Int./` in Lean (Euclidean division, equal to
  floor division for positive divisors).
* `setDate(getDate() + 1)` is modelled as adding `msPerDay = 86400000`
  (no daylight-saving discontinuities in the model).
* `setHours(h, m, 0, 0)` on a `Date` is modelled by supplying `dayStart`,
  the local midnight of the calendar day containing the instant, and
  adding `(h * 60 + m) * 60000`.
* JavaScript numbers in the focus-accuracy computation are modelled as
  rationals; every value the development evaluates (75, 100) is exactly
  representable in binary floating point, so the model agrees with the
  source there.
* The asynchronous persistence calls (`sessionAPI.addCheckin`,
  `sessionAPI.update`) are modelled by a `persistOk : Bool` parameter
  (does the awaited promise resolve?) plus an explicit record of the call
  that was issued, so theorems can count persistence calls.
* React state updates via `setActiveSession` become explicit state passing
  on `Option ActiveSessionState` (`none` = no active session).  The two
  `useEffect` interval loops become step functions plus an "is this timer
  installed?" predicate reflecting each effect's guard.
-/

namespace Ticus

def msPerDay : Int := 86400000

/-- Session status string union used by `endFocusSession`'s parameter:
`'completed' | 'abandoned'`. -/
inductive EndStatus where
  | completed
  | abandoned
  deriving Repr, DecidableEq

/-- The fields of `SessionData` that the embedded operations read
(`session_id`, `subject`, `planned_duration` in minutes, `start_time`
parsed to a ms-epoch instant). -/
structure SessionData where
  session_id : Nat
  subject : String
  planned_duration : Int
  start_time : Int
  deriving Repr, DecidableEq

/-- One recorded check-in (the in-memory `Checkin` objects appended by
`updateCheckInResponse`). -/
structure Checkin where
  checkin_time : Int
  was_focused : Bool
  response_time : Int
  deriving Repr, DecidableEq

/-- The `ActiveSessionState` interface of `UserContext.tsx`. -/
structure ActiveSessionState where
  sessionData : Option SessionData
  checkins : List Checkin
  timeElapsed : Int
  showCheckIn : Bool
  checkInTimeout : Int
  isPaused : Bool
  plannedDurationSeconds : Int
  totalPausedTime : Int
  pausedAt : Int
  nextPromptTime : Option Int
  deriving Repr, DecidableEq

/-- The slice of `UserSettings` the timer subsystem reads.
`check_in_interval` is `none` when the settings object is absent or the
field is undefined (the source reads it as `settings?.check_in_interval ?? 1`);
`preferred_prompt_time` is the parsed `"HH:MM"` pair, `none` when the
field is absent/empty (falsy in the source's truthiness tests). -/
structure UserSettings where
  check_in_interval : Option Int
  preferred_prompt_time : Option (Int × Int)
  sound_alerts : Bool
  deriving Repr, DecidableEq

/-- The argument record of the `sessionAPI.addCheckin` persistence call. -/
structure CheckinCall where
  session_id : Nat
  was_focused : Bool
  response_time : Int
  deriving Repr, DecidableEq

/-- The argument record of the `sessionAPI.update` finalize call issued by
`endFocusSession`. -/
structure FinalizePayload where
  session_id : Nat
  actualDuration : Int
  focusAccuracy : ℚ
  totalCheckins : Nat
  successfulCheckins : Nat
  sessionStatus : EndStatus
  deriving Repr, DecidableEq

/-- `promptCandidate.setHours(hours, minutes, 0, 0)` applied to a date on
the calendar day starting at `dayStart`. -/
def preferredCandidate (dayStart h m : Int) : Int :=
  dayStart + (h * 60 + m) * 60000

/-- The initial `calculatedNextPromptTime` computed by `startFocusSession`
(lines 141-156): with a preferred prompt time the candidate is hh:mm on the
session-start day, pushed to the next day if it is strictly before the
session start; otherwise `Date.now() + interval minutes`. -/
def initialNextPromptTime (settings : UserSettings) (now dayStart sessionStart : Int) :
    Option Int :=
  match settings.preferred_prompt_time with
  | some (h, m) =>
      let c := preferredCandidate dayStart h m
      some (if c < sessionStart then c + msPerDay else c)
  | none => some (now + settings.check_in_interval.getD 1 * 60 * 1000)

/-- `startFocusSession` (lines 135-171): the `setActiveSession` payload.
The guard `if (!user || !settings) return` is reflected by requiring the
settings as an argument; `dayStart` is the local midnight of the day
containing `sd.start_time`. -/
def startFocusSession (settings : UserSettings) (sd : SessionData)
    (now dayStart : Int) : ActiveSessionState :=
  { sessionData := some sd
    checkins := []
    timeElapsed := 0
    showCheckIn := false
    checkInTimeout := 30
    isPaused := false
    plannedDurationSeconds := sd.planned_duration * 60
    totalPausedTime := 0
    pausedAt := 0
    nextPromptTime := initialNextPromptTime settings now dayStart sd.start_time }

/-- `togglePauseSession` (lines 203-216): resume adds `now - pausedAt` to
`totalPausedTime`; pause records the pause instant. -/
def togglePauseSession (now : Int) :
    Option ActiveSessionState → Option ActiveSessionState
  | none => none
  | some prev =>
      if prev.isPaused then
        some { prev with
                isPaused := false
                totalPausedTime := prev.totalPausedTime + (now - prev.pausedAt)
                pausedAt := 0 }
      else
        some { prev with isPaused := true, pausedAt := now }

/-- The in-memory state update applied by `updateCheckInResponse`'s
`setActiveSession` call (lines 178-195): append the check-in, hide the
prompt, reset the 30 s window, and push `nextPromptTime` one day later. -/
def applyCheckInResponse (now : Int) (wasFocused : Bool) (responseTime : Int)
    (prev : ActiveSessionState) : ActiveSessionState :=
  { prev with
      checkins := prev.checkins ++ [⟨now, wasFocused, responseTime⟩]
      showCheckIn := false
      checkInTimeout := 30
      nextPromptTime := prev.nextPromptTime.map (· + msPerDay) }

/-- `updateCheckInResponse` (lines 173-201).  Guard: `!activeSession?.sessionData`
(the user is assumed logged in).  The `sessionAPI.addCheckin` call is awaited
FIRST; the state update runs only when it resolves (it sits after the `await`
inside the `try`), and on rejection the `catch` merely logs — the state is
left unchanged.  Returns the new state and the issued persistence call, if
any. -/
def updateCheckInResponse (persistOk : Bool) (now : Int) (wasFocused : Bool)
    (responseTime : Int) :
    Option ActiveSessionState → Option ActiveSessionState × Option CheckinCall
  | none => (none, none)
  | some prev =>
      match prev.sessionData with
      | none => (some prev, none)
      | some sd =>
          if persistOk then
            (some (applyCheckInResponse now wasFocused responseTime prev),
             some ⟨sd.session_id, wasFocused, responseTime⟩)
          else
            (some prev, some ⟨sd.session_id, wasFocused, responseTime⟩)

/-- `endFocusSession` (lines 218-246).  Guard: `!activeSession?.sessionData`.
Computes the final metrics, issues the `sessionAPI.update` finalize call, and
only when it resolves clears the active session (`setActiveSession(null)` is
after the `await` inside the `try`; the `catch` logs and leaves state).
Returns the new state and the issued finalize call, if any. -/
def endFocusSession (persistOk : Bool) (status : EndStatus) :
    Option ActiveSessionState → Option ActiveSessionState × Option FinalizePayload
  | none => (none, none)
  | some prev =>
      match prev.sessionData with
      | none => (some prev, none)
      | some sd =>
          let finalElapsedSeconds :=
            max 0 (prev.plannedDurationSeconds - prev.plannedDurationSeconds
                    + prev.timeElapsed)
          let actualDuration := finalElapsedSeconds / 60
          let totalCheckins := prev.checkins.length
          let successfulCheckins := (prev.checkins.filter (·.was_focused)).length
          let focusAccuracy : ℚ :=
            if totalCheckins > 0 then
              (successfulCheckins : ℚ) / (totalCheckins : ℚ) * 100
            else 100
          let payload : FinalizePayload :=
            ⟨sd.session_id, actualDuration, focusAccuracy, totalCheckins,
             successfulCheckins, status⟩
          if persistOk then (none, some payload) else (some prev, some payload)

/-- `currentElapsed` as computed at line 275 of the main timer loop:
`Math.floor((now - sessionStartTime - prev.totalPausedTime) / 1000)`. -/
def currentElapsed (now sessionStartTime totalPausedTime : Int) : Int :=
  (now - sessionStartTime - totalPausedTime) / 1000

/-- Result of one main-timer tick: the new state, whether this tick invoked
`endFocusSession('completed')`, and whether it surfaced a check-in prompt. -/
structure TickResult where
  state : Option ActiveSessionState
  completedFired : Bool
  promptFired : Bool
  deriving Repr, DecidableEq

/-- The body of the main timer loop's `setInterval` callback
(lines 267-309).  `sessionStartTime` is the parsed `start_time`; `now` is
`Date.now()` at this tick.  When `remaining <= 0` the callback invokes
`endFocusSession('completed')`, clears the interval and nulls the state.
Otherwise the preferred-time branch fires when a preferred time is
configured, `nextPromptTime` is set and reached, and no prompt is shown;
the interval branch fires when no preferred time is configured,
`elapsed > 0`, `elapsed % (interval * 60) == 0`, and no prompt is shown. -/
def tickStep (settings : UserSettings) (sessionStartTime now : Int) :
    Option ActiveSessionState → TickResult
  | none => ⟨none, false, false⟩
  | some prev =>
      let elapsed := currentElapsed now sessionStartTime prev.totalPausedTime
      if prev.plannedDurationSeconds - elapsed ≤ 0 then
        ⟨none, true, false⟩
      else
        let intervalDuration := settings.check_in_interval.getD 1
        let preferredDue : Bool :=
          settings.preferred_prompt_time.isSome
            && (match prev.nextPromptTime with
                | some t => decide (t ≤ now)
                | none => false)
            && !prev.showCheckIn
        let intervalDue : Bool :=
          !settings.preferred_prompt_time.isSome
            && decide (0 < elapsed)
            && decide (elapsed % (intervalDuration * 60) = 0)
            && !prev.showCheckIn
        if preferredDue then
          -- `preferredDue` forces `prev.nextPromptTime = some t`
          let t := prev.nextPromptTime.getD 0
          ⟨some { prev with
                    timeElapsed := elapsed
                    showCheckIn := true
                    checkInTimeout := 30
                    nextPromptTime := some (t + msPerDay) },
            false, true⟩
        else if intervalDue then
          ⟨some { prev with
                    timeElapsed := elapsed
                    showCheckIn := true
                    checkInTimeout := 30
                    nextPromptTime := some (now + intervalDuration * 60 * 1000) },
            false, true⟩
        else
          ⟨some { prev with timeElapsed := elapsed }, false, false⟩

/-- The main timer loop effect's guard (lines 256-260): the interval is
installed only while a session exists and is not paused (the `user` and
`loading` conjuncts concern authentication and are held true here). -/
def mainTimerActive : Option ActiveSessionState → Bool
  | none => false
  | some s => !s.isPaused

/-- The check-in timeout loop effect's guard (lines 317-321): the countdown
interval is installed exactly while `activeSession?.showCheckIn` — note it
does NOT consult `isPaused`. -/
def checkinTimerActive : Option ActiveSessionState → Bool
  | none => false
  | some s => s.showCheckIn

/-- The body of the check-in countdown `setInterval` callback
(lines 325-339).  At `newCheckInTimeout <= 0` the updater hides the prompt
and resets the window, and `updateCheckInResponse(false, 30)` is invoked;
its own (later) state update is composed on top. -/
def checkinTimeoutStep (persistOk : Bool) (now : Int) :
    Option ActiveSessionState → Option ActiveSessionState × Option CheckinCall
  | none => (none, none)
  | some prev =>
      let newCheckInTimeout := prev.checkInTimeout - 1
      if newCheckInTimeout ≤ 0 then
        updateCheckInResponse persistOk now false 30
          (some { prev with showCheckIn := false, checkInTimeout := 30 })
      else
        (some { prev with checkInTimeout := newCheckInTimeout }, none)

/-- Run the main timer over a list of tick instants, counting how many
ticks invoked `endFocusSession('completed')`. -/
def runTicks (settings : UserSettings) (sessionStartTime : Int) :
    List Int → Option ActiveSessionState → Option ActiveSessionState × Nat
  | [], s => (s, 0)
  | now :: rest, s =>
      let r := tickStep settings sessionStartTime now s
      let (s', n) := runTicks settings sessionStartTime rest r.state
      (s', (if r.completedFired then 1 else 0) + n)

/-- Run the check-in countdown timer for up to `k` seconds, respecting the
effect guard (`checkinTimerActive`): the callback only runs while the
interval is installed.  Collects the issued `addCheckin` calls. -/
def runCountdown (persistOk : Bool) (now : Int) :
    Nat → Option ActiveSessionState → Option ActiveSessionState × List CheckinCall
  | 0, s => (s, [])
  | Nat.succ k, s =>
      if checkinTimerActive s then
        let r := checkinTimeoutStep persistOk now s
        let rest := runCountdown persistOk now k r.1
        (rest.1, r.2.toList ++ rest.2)
      else (s, [])

/-! Projections used to state theorems about optional states. -/

def stateTimeElapsed : Option ActiveSessionState → Int
  | none => -1
  | some s => s.timeElapsed

def stateTotalPaused : Option ActiveSessionState → Int
  | none => -1
  | some s => s.totalPausedTime

def stateNextPrompt : Option ActiveSessionState → Option Int
  | none => none
  | some s => s.nextPromptTime

def stateCheckins : Option ActiveSessionState → List Checkin
  | none => []
  | some s => s.checkins

def stateCheckInTimeout : Option ActiveSessionState → Int
  | none => -1
  | some s => s.checkInTimeout

def payloadAccuracy : Option FinalizePayload → ℚ
  | none => -1
  | some p => p.focusAccuracy

/-! ### Concrete fixtures -/

/-- Settings with a 1-minute fixed check-in interval and no preferred time. -/
def intervalSettings : UserSettings := ⟨some 1, none, false⟩

/-- A 25-minute session on subject "algebra" starting at instant `T`. -/
def c1Session (T : Int) : SessionData := ⟨1, "algebra", 25, T⟩

/-- The pause/resume scenario: start at `T`, pause at `T + 10 s`,
resume at `T + 40 s`. -/
def c1Scenario (T : Int) : Option ActiveSessionState :=
  togglePauseSession (T + 40000)
    (togglePauseSession (T + 10000)
      (some (startFocusSession intervalSettings (c1Session T) T T)))

lemma c1Scenario_eq (T : Int) :
    c1Scenario T = some
      { sessionData := some (c1Session T)
        checkins := []
        timeElapsed := 0
        showCheckIn := false
        checkInTimeout := 30
        isPaused := false
        plannedDurationSeconds := 1500
        totalPausedTime := 30000
        pausedAt := 0
        nextPromptTime := some (T + 60000) } := by
  simp only [c1Scenario, startFocusSession, togglePauseSession,
    initialNextPromptTime, intervalSettings, c1Session]
  norm_num

lemma currentElapsed_c1 (T : Int) : currentElapsed (T + 50000) T 30000 = 20 := by
  have h : T + 50000 - T - 30000 = (20000 : Int) := by ring
  rw [currentElapsed, h]
  decide

/-! ### Claim theorems -/

/-- C1 counterexample: with the session started at `T = 0`, paused at 10 s and
resumed at 40 s, the tick at real time 50 s observes elapsed 20 s, not the
40 s the claim's scenario asserts (wall clock 50 s minus 30 s of paused time
is 20 s). -/
theorem C1_counterexample :
    stateTimeElapsed (tickStep intervalSettings 0 50000 (c1Scenario 0)).state = 20 ∧
    ¬ stateTimeElapsed (tickStep intervalSettings 0 50000 (c1Scenario 0)).state = 40 := by
  decide

/-- C1 (amended): elapsed equals floor((now − start − accumulated_paused)/1000)
where resume adds (now − pause_instant) to the accumulated paused duration, so
a session started at `T`, paused at `T+10s` and resumed at `T+40s` has
accumulated 30 s of paused time and elapsed = 20 s at real time `T+50s`
(not 40 s). -/
theorem C1_elapsed_pause_resume (T p r : Int) :
    stateTotalPaused
      (togglePauseSession r (togglePauseSession p
        (some (startFocusSession intervalSettings (c1Session T) T T)))) = r - p ∧
    stateTotalPaused (c1Scenario T) = 30000 ∧
    stateTimeElapsed (tickStep intervalSettings T (T + 50000) (c1Scenario T)).state
      = 20 := by
  refine ⟨?_, ?_, ?_⟩
  · simp [startFocusSession, togglePauseSession, stateTotalPaused,
      initialNextPromptTime, intervalSettings]
  · rw [c1Scenario_eq]; rfl
  · rw [c1Scenario_eq]
    simp only [tickStep, currentElapsed_c1, stateTimeElapsed]
    norm_num [intervalSettings]

lemma runTicks_none (settings : UserSettings) (start : Int) (nows : List Int) :
    runTicks settings start nows none = (none, 0) := by
  induction nows with
  | nil => rfl
  | cons now rest ih => simp [runTicks, tickStep, ih]

/-- C2: when a tick observes elapsed ≥ planned_duration_seconds
(remaining ≤ 0), it invokes end(completed), nulls the state (suspending
further ticking), and over the whole remaining tick sequence the completion
transition fires exactly once — later ticks run against a null state and are
inert. -/
theorem C2_completion_one_shot (settings : UserSettings) (start now : Int)
    (prev : ActiveSessionState) (nows : List Int)
    (h : prev.plannedDurationSeconds ≤ currentElapsed now start prev.totalPausedTime) :
    tickStep settings start now (some prev) = ⟨none, true, false⟩ ∧
    (runTicks settings start (now :: nows) (some prev)).2 = 1 ∧
    runTicks settings start nows none = (none, 0) := by
  have ht : tickStep settings start now (some prev) = ⟨none, true, false⟩ := by
    simp only [tickStep]
    rw [if_pos (by omega :
      prev.plannedDurationSeconds - currentElapsed now start prev.totalPausedTime ≤ 0)]
  refine ⟨ht, ?_, runTicks_none settings start nows⟩
  simp [runTicks, ht, runTicks_none]

/-- C2 witness: a 1-minute session started at 0 whose tick at 60 s completes it. -/
theorem C2_completion_one_shot_witness :
    tickStep intervalSettings 0 60000
      (some (startFocusSession intervalSettings ⟨1, "algebra", 1, 0⟩ 0 0))
      = ⟨none, true, false⟩ ∧
    (runTicks intervalSettings 0 (60000 :: [61000, 62000])
      (some (startFocusSession intervalSettings ⟨1, "algebra", 1, 0⟩ 0 0))).2 = 1 ∧
    runTicks intervalSettings 0 [61000, 62000] none = (none, 0) :=
  C2_completion_one_shot intervalSettings 0 60000
    (startFocusSession intervalSettings ⟨1, "algebra", 1, 0⟩ 0 0)
    [61000, 62000] (by decide)

/-- A mid-session state with an outstanding prompt under the fixed-interval
policy: elapsed 60 s, `nextPromptTime` 60 s (set when the prompt fired). -/
def c3State : ActiveSessionState :=
  { sessionData := some ⟨2, "history", 25, 0⟩
    checkins := []
    timeElapsed := 60
    showCheckIn := true
    checkInTimeout := 12
    isPaused := false
    plannedDurationSeconds := 1500
    totalPausedTime := 0
    pausedAt := 0
    nextPromptTime := some 60000 }

/-- C3 counterexample: responding to the prompt at `now = 65000` with a
1-minute interval sets the next-prompt time to `60000 + 86400000` (one day
after its current value), not `now + N minutes = 125000` as the claim
states. -/
theorem C3_counterexample :
    stateNextPrompt (updateCheckInResponse true 65000 true 18 (some c3State)).1
      = some 86460000 ∧
    ¬ stateNextPrompt (updateCheckInResponse true 65000 true 18 (some c3State)).1
      = some (65000 + 1 * 60 * 1000) := by
  decide

/-- C3 (amended): under the fixed-interval policy with interval N minutes
(minimum 1), a tick fires a prompt exactly when elapsed mod (N*60) == 0 with
elapsed > 0 and no prompt currently pending; when the prompt fires the
next-prompt time is set to now + N minutes, but after a response the
next-prompt time is advanced by one day from its current value, not set to
now + N minutes. -/
theorem C3_interval_policy (N : Int) (b : Bool) (start now now2 rt : Int)
    (wf : Bool) (prev s : ActiveSessionState) (sd : SessionData) (t : Int)
    (hN : 1 ≤ N)
    (h1 : prev.showCheckIn = false)
    (h2 : 0 < prev.plannedDurationSeconds
            - currentElapsed now start prev.totalPausedTime)
    (hsd : s.sessionData = some sd) (ht : s.nextPromptTime = some t) :
    ((tickStep ⟨some N, none, b⟩ start now (some prev)).promptFired = true ↔
       0 < currentElapsed now start prev.totalPausedTime ∧
         currentElapsed now start prev.totalPausedTime % (N * 60) = 0) ∧
    ((tickStep ⟨some N, none, b⟩ start now (some prev)).promptFired = true →
       stateNextPrompt (tickStep ⟨some N, none, b⟩ start now (some prev)).state
         = some (now + N * 60 * 1000)) ∧
    stateNextPrompt (updateCheckInResponse true now2 wf rt (some s)).1
      = some (t + msPerDay) := by
  have hfire : tickStep ⟨some N, none, b⟩ start now (some prev) =
      (if 0 < currentElapsed now start prev.totalPausedTime ∧
           currentElapsed now start prev.totalPausedTime % (N * 60) = 0 then
        ⟨some { prev with
                  timeElapsed := currentElapsed now start prev.totalPausedTime
                  showCheckIn := true
                  checkInTimeout := 30
                  nextPromptTime := some (now + N * 60 * 1000) },
          false, true⟩
      else
        ⟨some { prev with
                  timeElapsed := currentElapsed now start prev.totalPausedTime },
          false, false⟩) := by
    simp only [tickStep]
    rw [if_neg (by omega : ¬ prev.plannedDurationSeconds
          - currentElapsed now start prev.totalPausedTime ≤ 0)]
    simp only [Option.isSome_none, Bool.false_and, Bool.and_false, if_false,
      Bool.not_false, Bool.and_true, Option.getD_some, h1, Bool.not_true,
      Bool.not_false, Bool.false_eq_true, if_neg, Option.isSome_some,
      Bool.true_and, Option.getD, Bool.if_false_left, Bool.if_false_right]
    by_cases hc : 0 < currentElapsed now start prev.totalPausedTime ∧
        currentElapsed now start prev.totalPausedTime % (N * 60) = 0
    · rw [if_pos hc]
      simp [hc.1, hc.2]
    · rw [if_neg hc]
      rcases Decidable.not_and_iff_or_not.mp hc with hfail | hfail <;>
        simp [hfail]
  refine ⟨?_, ?_, ?_⟩
  · rw [hfire]
    by_cases hc : 0 < currentElapsed now start prev.totalPausedTime ∧
        currentElapsed now start prev.totalPausedTime % (N * 60) = 0
    · rw [if_pos hc]; simpa using hc
    · rw [if_neg hc]; simpa using hc
  · rw [hfire]
    by_cases hc : 0 < currentElapsed now start prev.totalPausedTime ∧
        currentElapsed now start prev.totalPausedTime % (N * 60) = 0
    · rw [if_pos hc]; intro _; rfl
    · rw [if_neg hc]; intro hcontra; simp at hcontra
  · simp [updateCheckInResponse, hsd, applyCheckInResponse, ht, stateNextPrompt]

/-- C3 witness: a 1-minute-interval session started at 0, ticked at 60 s
(prompt fires, next-prompt set to 120 s), then responded to at 65 s. -/
theorem C3_interval_policy_witness :
    ((tickStep ⟨some 1, none, false⟩ 0 60000
        (some (startFocusSession intervalSettings ⟨2, "history", 25, 0⟩ 0 0))).promptFired
        = true ↔
       0 < currentElapsed 60000 0
           (startFocusSession intervalSettings ⟨2, "history", 25, 0⟩ 0 0).totalPausedTime ∧
         currentElapsed 60000 0
           (startFocusSession intervalSettings ⟨2, "history", 25, 0⟩ 0 0).totalPausedTime
           % (1 * 60) = 0) ∧
    ((tickStep ⟨some 1, none, false⟩ 0 60000
        (some (startFocusSession intervalSettings ⟨2, "history", 25, 0⟩ 0 0))).promptFired
        = true →
       stateNextPrompt (tickStep ⟨some 1, none, false⟩ 0 60000
        (some (startFocusSession intervalSettings ⟨2, "history", 25, 0⟩ 0 0))).state
         = some (60000 + 1 * 60 * 1000)) ∧
    stateNextPrompt (updateCheckInResponse true 65000 true 18 (some c3State)).1
      = some (60000 + msPerDay) :=
  C3_interval_policy 1 false 0 60000 65000 18 true
    (startFocusSession intervalSettings ⟨2, "history", 25, 0⟩ 0 0)
    c3State ⟨2, "history", 25, 0⟩ 60000
    (by decide) (by decide) (by decide) (by decide) (by decide)

/-- The state the check-in machinery reaches when the 30-second window
elapses unanswered: prompt hidden, window reset, the synthetic failed
check-in appended, next-prompt time pushed a day (via
`updateCheckInResponse(false, 30)`). -/
def autoFailResolved (now : Int) (s : ActiveSessionState) : ActiveSessionState :=
  applyCheckInResponse now false 30 { s with showCheckIn := false, checkInTimeout := 30 }

lemma autoFailResolved_timeout_irrelevant (now x : Int) (s : ActiveSessionState) :
    autoFailResolved now { s with checkInTimeout := x } = autoFailResolved now s := rfl

lemma runCountdown_inactive (ok : Bool) (now : Int) (k : Nat)
    (s : Option ActiveSessionState) (h : checkinTimerActive s = false) :
    runCountdown ok now k s = (s, []) := by
  cases k <;> simp [runCountdown, h]

lemma runCountdown_resolves (now : Int) (sd : SessionData) :
    ∀ (n : Nat) (s : ActiveSessionState), s.sessionData = some sd →
      s.showCheckIn = true → s.checkInTimeout = (n : Int) + 1 →
      ∀ k : Nat, n + 1 ≤ k →
        runCountdown true now k (some s) =
          (some (autoFailResolved now s), [⟨sd.session_id, false, 30⟩]) := by
  intro n
  induction n with
  | zero =>
      intro s hsd hshow ht k hk
      obtain ⟨k', rfl⟩ : ∃ k', k = k' + 1 := ⟨k - 1, by omega⟩
      have hstep : checkinTimeoutStep true now (some s) =
          (some (autoFailResolved now s), some ⟨sd.session_id, false, 30⟩) := by
        simp only [checkinTimeoutStep, ht]
        split
        · simp [updateCheckInResponse, hsd, autoFailResolved]
        · exfalso; omega
      have hdone : checkinTimerActive (some (autoFailResolved now s)) = false := rfl
      simp [runCountdown, checkinTimerActive, hshow, hstep,
        runCountdown_inactive true now k' _ hdone]
  | succ n ih =>
      intro s hsd hshow ht k hk
      obtain ⟨k', rfl⟩ : ∃ k', k = k' + 1 := ⟨k - 1, by omega⟩
      have hstep : checkinTimeoutStep true now (some s) =
          (some { s with checkInTimeout := (n : Int) + 1 }, none) := by
        simp only [checkinTimeoutStep, ht]
        split
        · exfalso; omega
        · have h2 : (((n + 1 : Nat)) : Int) + 1 - 1 = (n : Int) + 1 := by
            push_cast; ring
          rw [h2]
      have hrec := ih { s with checkInTimeout := (n : Int) + 1 }
        (by simpa using hsd) (by simpa using hshow) rfl k' (by omega)
      simp only [hshow] at hrec
      simp [runCountdown, checkinTimerActive, hshow, hstep, hrec,
        autoFailResolved, applyCheckInResponse]

/-- C4: when a prompt's 30-second window elapses unanswered, the countdown
records exactly one check-in call with was_focused = false and
response_time = 30 (and exactly one synthetic `Checkin` is appended), the
prompt state returns to IDLE (`showCheckIn = false`), and the countdown
timer is fully stopped: its effect guard is false afterwards and further
countdown runs are inert. -/
theorem C4_auto_fail_timeout (now : Int) (s : ActiveSessionState)
    (sd : SessionData) (k k2 : Nat)
    (hsd : s.sessionData = some sd) (hshow : s.showCheckIn = true)
    (ht : s.checkInTimeout = 30) (hk : 30 ≤ k) :
    runCountdown true now k (some s)
      = (some (autoFailResolved now s), [⟨sd.session_id, false, 30⟩]) ∧
    (autoFailResolved now s).checkins = s.checkins ++ [⟨now, false, 30⟩] ∧
    (autoFailResolved now s).showCheckIn = false ∧
    checkinTimerActive (some (autoFailResolved now s)) = false ∧
    runCountdown true now k2 (some (autoFailResolved now s))
      = (some (autoFailResolved now s), []) := by
  have h30 : s.checkInTimeout = ((29 : Nat) : Int) + 1 := by rw [ht]; norm_num
  refine ⟨runCountdown_resolves now sd 29 s hsd hshow h30 k (by omega),
    rfl, rfl, rfl, runCountdown_inactive true now k2 _ rfl⟩

/-- A state with an outstanding prompt and a full 30-second window. -/
def c4State : ActiveSessionState :=
  { sessionData := some ⟨3, "physics", 25, 0⟩
    checkins := []
    timeElapsed := 120
    showCheckIn := true
    checkInTimeout := 30
    isPaused := false
    plannedDurationSeconds := 1500
    totalPausedTime := 0
    pausedAt := 0
    nextPromptTime := some 180000 }

/-- C4 witness: the unanswered prompt of `c4State`, run for 35 countdown
seconds, auto-fails exactly once. -/
theorem C4_auto_fail_timeout_witness :
    runCountdown true 150000 35 (some c4State)
      = (some (autoFailResolved 150000 c4State), [⟨3, false, 30⟩]) ∧
    (autoFailResolved 150000 c4State).checkins
      = c4State.checkins ++ [⟨150000, false, 30⟩] ∧
    (autoFailResolved 150000 c4State).showCheckIn = false ∧
    checkinTimerActive (some (autoFailResolved 150000 c4State)) = false ∧
    runCountdown true 150000 12 (some (autoFailResolved 150000 c4State))
      = (some (autoFailResolved 150000 c4State), []) :=
  C4_auto_fail_timeout 150000 c4State ⟨3, "physics", 25, 0⟩ 35 12
    (by decide) (by decide) (by decide) (by decide)

/-- C5: under the preferred time-of-day policy, `startFocusSession` schedules
the first prompt at the configured hour:minute of the session-start day;
when that instant is already past the session start it rolls to the
following day, so the scheduled prompt is strictly after the session start
(never immediate). -/
theorem C5_preferred_rolls_to_next_day (h m dayStart now : Int) (b : Bool)
    (N : Option Int) (sd : SessionData)
    (hday : dayStart ≤ sd.start_time)
    (hday2 : sd.start_time < dayStart + msPerDay)
    (hhm : 0 ≤ h * 60 + m)
    (hpast : preferredCandidate dayStart h m < sd.start_time) :
    (startFocusSession ⟨N, some (h, m), b⟩ sd now dayStart).nextPromptTime
      = some (preferredCandidate dayStart h m + msPerDay) ∧
    sd.start_time < preferredCandidate dayStart h m + msPerDay := by
  constructor
  · simp [startFocusSession, initialNextPromptTime, hpast]
  · have hc : 0 ≤ (h * 60 + m) * 60000 :=
      mul_nonneg hhm (by norm_num)
    have h1 : preferredCandidate dayStart h m
        = dayStart + (h * 60 + m) * 60000 := rfl
    have h2 : msPerDay = 86400000 := rfl
    rw [h1]
    rw [h2] at hday2 ⊢
    linarith

/-- C5 witness: preferred time "09:00" with a session starting at 09:05
(day start at 0) schedules the first prompt for the next day at 09:00. -/
theorem C5_preferred_rolls_to_next_day_witness :
    (startFocusSession ⟨some 1, some (9, 0), false⟩ ⟨4, "chemistry", 25, 32700000⟩
        32700000 0).nextPromptTime
      = some (preferredCandidate 0 9 0 + msPerDay) ∧
    (32700000 : Int) < preferredCandidate 0 9 0 + msPerDay :=
  C5_preferred_rolls_to_next_day 9 0 0 32700000 false (some 1)
    ⟨4, "chemistry", 25, 32700000⟩ (by decide) (by decide) (by decide) (by decide)

/-- C6: a first successful `endFocusSession` clears the active session and
issues exactly one finalize call; every further `endFocusSession` on the
terminated (null) state is a benign no-op guarded by the state check — it
returns without issuing a finalize (and, being a total function, without
throwing). -/
theorem C6_end_idempotent (status status2 : EndStatus) (ok2 : Bool)
    (s : ActiveSessionState) (sd : SessionData)
    (hsd : s.sessionData = some sd) :
    (endFocusSession true status (some s)).1 = none ∧
    (endFocusSession true status (some s)).2.isSome = true ∧
    endFocusSession ok2 status2 ((endFocusSession true status (some s)).1)
      = (none, none) := by
  simp [endFocusSession, hsd]

/-- C6 witness: ending the `c4State` session twice finalizes exactly once. -/
theorem C6_end_idempotent_witness :
    (endFocusSession true EndStatus.abandoned (some c4State)).1 = none ∧
    (endFocusSession true EndStatus.abandoned (some c4State)).2.isSome = true ∧
    endFocusSession true EndStatus.completed
        ((endFocusSession true EndStatus.abandoned (some c4State)).1)
      = (none, none) :=
  C6_end_idempotent EndStatus.abandoned EndStatus.completed true c4State
    ⟨3, "physics", 25, 0⟩ (by decide)

/-- A session about to end with 4 check-ins, 3 of them focused. -/
def c7StateFour : ActiveSessionState :=
  { sessionData := some ⟨5, "latin", 25, 0⟩
    checkins := [⟨60000, true, 5⟩, ⟨120000, true, 3⟩, ⟨180000, false, 30⟩,
                 ⟨240000, true, 7⟩]
    timeElapsed := 250
    showCheckIn := false
    checkInTimeout := 30
    isPaused := false
    plannedDurationSeconds := 1500
    totalPausedTime := 0
    pausedAt := 0
    nextPromptTime := some 300000 }

/-- A session about to end with no check-ins. -/
def c7StateZero : ActiveSessionState :=
  { sessionData := some ⟨6, "greek", 25, 0⟩
    checkins := []
    timeElapsed := 250
    showCheckIn := false
    checkInTimeout := 30
    isPaused := false
    plannedDurationSeconds := 1500
    totalPausedTime := 0
    pausedAt := 0
    nextPromptTime := some 300000 }

/-- C7: the finalize call computes actual_duration = floor(elapsed/60) and
focus_accuracy = successful/total * 100, or 100 when total is 0; in
particular total = 4 with successful = 3 yields 75, and total = 0 yields
100. -/
theorem C7_final_metrics (status : EndStatus) (s : ActiveSessionState)
    (sd : SessionData) (hsd : s.sessionData = some sd)
    (hel : 0 ≤ s.timeElapsed) :
    (endFocusSession true status (some s)).2 = some
      ⟨sd.session_id, s.timeElapsed / 60,
       (if 0 < s.checkins.length then
          ((s.checkins.filter (·.was_focused)).length : ℚ)
            / (s.checkins.length : ℚ) * 100
        else 100),
       s.checkins.length, (s.checkins.filter (·.was_focused)).length, status⟩ ∧
    payloadAccuracy (endFocusSession true EndStatus.completed (some c7StateFour)).2
      = 75 ∧
    payloadAccuracy (endFocusSession true EndStatus.completed (some c7StateZero)).2
      = 100 := by
  refine ⟨?_, ?_, ?_⟩
  · simp [endFocusSession, hsd, max_eq_right hel]
  · norm_num [endFocusSession, payloadAccuracy, c7StateFour, List.filter]
  · norm_num [endFocusSession, payloadAccuracy, c7StateZero]

/-- C7 witness: the general metric formula instantiated at the 4-check-in
session. -/
theorem C7_final_metrics_witness :
    (endFocusSession true EndStatus.completed (some c7StateFour)).2 = some
      ⟨5, c7StateFour.timeElapsed / 60,
       (if 0 < c7StateFour.checkins.length then
          ((c7StateFour.checkins.filter (·.was_focused)).length : ℚ)
            / (c7StateFour.checkins.length : ℚ) * 100
        else 100),
       c7StateFour.checkins.length,
       (c7StateFour.checkins.filter (·.was_focused)).length,
       EndStatus.completed⟩ ∧
    payloadAccuracy (endFocusSession true EndStatus.completed (some c7StateFour)).2
      = 75 ∧
    payloadAccuracy (endFocusSession true EndStatus.completed (some c7StateZero)).2
      = 100 :=
  C7_final_metrics EndStatus.completed c7StateFour ⟨5, "latin", 25, 0⟩
    (by decide) (by decide)

/-- An active session with NO outstanding prompt (`showCheckIn = false`). -/
def c8State : ActiveSessionState :=
  { sessionData := some ⟨7, "biology", 25, 0⟩
    checkins := []
    timeElapsed := 90
    showCheckIn := false
    checkInTimeout := 30
    isPaused := false
    plannedDurationSeconds := 1500
    totalPausedTime := 0
    pausedAt := 0
    nextPromptTime := some 60000 }

/-- C8 counterexample: calling `updateCheckInResponse` on `c8State` — a
session with no check-in prompt outstanding — is NOT a no-op: it issues an
`addCheckin` persistence call, appends a check-in, and changes the state
(there is no AWAITING_RESPONSE guard, only the `!activeSession?.sessionData`
guard). -/
theorem C8_counterexample :
    (updateCheckInResponse true 90000 true 5 (some c8State)).2
      = some ⟨7, true, 5⟩ ∧
    (stateCheckins (updateCheckInResponse true 90000 true 5 (some c8State)).1).length
      = 1 ∧
    ¬ (updateCheckInResponse true 90000 true 5 (some c8State)).1 = some c8State := by
  decide

/-- C8 (amended): `respondToCheckIn` is a benign no-op — nothing recorded, no
state change, never a fatal error — only when no active session (with session
data) exists; while a session is active it records and persists a Check-in
even when no prompt is outstanding, since the guard checks only
`activeSession?.sessionData`, not the prompt state. -/
theorem C8_guard_is_session_only (persistOk wf : Bool) (now rt : Int)
    (s : ActiveSessionState) (sd : SessionData)
    (hsd : s.sessionData = some sd) (hns : s.showCheckIn = false) :
    updateCheckInResponse persistOk now wf rt none = (none, none) ∧
    (updateCheckInResponse true now wf rt (some s)).2
      = some ⟨sd.session_id, wf, rt⟩ ∧
    stateCheckins (updateCheckInResponse true now wf rt (some s)).1
      = s.checkins ++ [⟨now, wf, rt⟩] := by
  refine ⟨rfl, ?_, ?_⟩ <;>
    simp [updateCheckInResponse, hsd, applyCheckInResponse, stateCheckins]

/-- C8 witness: the no-prompt state `c8State`. -/
theorem C8_guard_is_session_only_witness :
    updateCheckInResponse true 90000 true 5 none = (none, none) ∧
    (updateCheckInResponse true 90000 true 5 (some c8State)).2
      = some ⟨7, true, 5⟩ ∧
    stateCheckins (updateCheckInResponse true 90000 true 5 (some c8State)).1
      = c8State.checkins ++ [⟨90000, true, 5⟩] :=
  C8_guard_is_session_only true true 90000 5 c8State ⟨7, "biology", 25, 0⟩
    (by decide) (by decide)

/-- An active session with an outstanding prompt, about to be responded to. -/
def c9State : ActiveSessionState :=
  { sessionData := some ⟨8, "music", 25, 0⟩
    checkins := []
    timeElapsed := 60
    showCheckIn := true
    checkInTimeout := 20
    isPaused := false
    plannedDurationSeconds := 1500
    totalPausedTime := 0
    pausedAt := 0
    nextPromptTime := some 60000 }

/-- C9 counterexample: when the `addCheckin` persistence call fails, the
in-memory state does NOT advance — the check-in is not applied and the
prompt stays outstanding — because the state update sits after the awaited
persistence call; this refutes the claim that the client applies the
transition optimistically without waiting on persistence success. -/
theorem C9_counterexample :
    (updateCheckInResponse false 60000 true 10 (some c9State)).2
      = some ⟨8, true, 10⟩ ∧
    (updateCheckInResponse false 60000 true 10 (some c9State)).1
      = some c9State ∧
    (stateCheckins (updateCheckInResponse false 60000 true 10 (some c9State)).1).length
      = 0 := by
  decide

/-- C9 (amended): persistence failures are caught and logged, never thrown;
the in-memory transition is applied only after the awaited persistence call
succeeds, so on failure nothing advances (and hence nothing needs rolling
back); after a failed finalize the active session remains, so the user can
retry ending it and a successful retry finalizes and clears it. -/
theorem C9_persistence_failure_semantics (now rt : Int) (wf : Bool)
    (status status2 : EndStatus) (s : ActiveSessionState) (sd : SessionData)
    (hsd : s.sessionData = some sd) :
    (updateCheckInResponse false now wf rt (some s)).1 = some s ∧
    (updateCheckInResponse false now wf rt (some s)).2
      = some ⟨sd.session_id, wf, rt⟩ ∧
    (endFocusSession false status (some s)).1 = some s ∧
    (endFocusSession false status (some s)).2.isSome = true ∧
    (endFocusSession true status2 ((endFocusSession false status (some s)).1)).1
      = none ∧
    (endFocusSession true status2 ((endFocusSession false status (some s)).1)).2.isSome
      = true := by
  simp [updateCheckInResponse, endFocusSession, hsd]

/-- C9 witness: failed persistence on `c9State`, then a successful retry of
the finalize. -/
theorem C9_persistence_failure_semantics_witness :
    (updateCheckInResponse false 60000 true 10 (some c9State)).1 = some c9State ∧
    (updateCheckInResponse false 60000 true 10 (some c9State)).2
      = some ⟨8, true, 10⟩ ∧
    (endFocusSession false EndStatus.abandoned (some c9State)).1 = some c9State ∧
    (endFocusSession false EndStatus.abandoned (some c9State)).2.isSome = true ∧
    (endFocusSession true EndStatus.abandoned
        ((endFocusSession false EndStatus.abandoned (some c9State)).1)).1 = none ∧
    (endFocusSession true EndStatus.abandoned
        ((endFocusSession false EndStatus.abandoned (some c9State)).1)).2.isSome
      = true :=
  C9_persistence_failure_semantics 60000 10 true EndStatus.abandoned
    EndStatus.abandoned c9State ⟨8, "music", 25, 0⟩ (by decide)

/-- A paused session with an outstanding prompt and a running countdown. -/
def c10State : ActiveSessionState :=
  { sessionData := some ⟨9, "drawing", 25, 0⟩
    checkins := []
    timeElapsed := 100
    showCheckIn := true
    checkInTimeout := 30
    isPaused := true
    plannedDurationSeconds := 1500
    totalPausedTime := 5000
    pausedAt := 105000
    nextPromptTime := some 60000 }

/-- C10 counterexample: with the session paused (`c10State.isPaused = true`)
and a prompt outstanding, the countdown effect is still installed (its guard
checks only `showCheckIn`) and a countdown tick decrements the response
window from 30 to 29 — the countdown is not suspended by pause. -/
theorem C10_counterexample :
    checkinTimerActive (some c10State) = true ∧
    stateCheckInTimeout (checkinTimeoutStep true 110000 (some c10State)).1
      = 29 := by
  decide

/-- C10 (amended): pause suspends the session clock — while paused the main
timer effect is not installed, so elapsed is not recomputed and no new
prompt fires — but the check-in machinery is NOT suspended: the countdown
effect's guard consults only `showCheckIn`, so an outstanding response
countdown keeps decrementing (and can auto-resolve) while the session is
paused. -/
theorem C10_pause_suspends_clock_not_countdown (ok : Bool) (now : Int)
    (s s2 : ActiveSessionState)
    (hp : s.isPaused = true)
    (hp2 : s2.isPaused = true) (hshow2 : s2.showCheckIn = true)
    (ht2 : 1 < s2.checkInTimeout) :
    mainTimerActive (some s) = false ∧
    checkinTimerActive (some s2) = true ∧
    (checkinTimeoutStep ok now (some s2)).1
      = some { s2 with checkInTimeout := s2.checkInTimeout - 1 } := by
  refine ⟨?_, ?_, ?_⟩
  · simp [mainTimerActive, hp]
  · simp [checkinTimerActive, hshow2]
  · simp only [checkinTimeoutStep]
    rw [if_neg (by omega : ¬ s2.checkInTimeout - 1 ≤ 0)]

/-- C10 witness: the paused state `c10State` with a running countdown. -/
theorem C10_pause_suspends_clock_not_countdown_witness :
    mainTimerActive (some c10State) = false ∧
    checkinTimerActive (some c10State) = true ∧
    (checkinTimeoutStep true 110000 (some c10State)).1
      = some { c10State with checkInTimeout := c10State.checkInTimeout - 1 } :=
  C10_pause_suspends_clock_not_countdown true 110000 c10State c10State
    (by decide) (by decide) (by decide) (by decide)

end Ticus
